import Mathlib

/-!
Verification of the InfraLock IP-categorization system against its
natural-language specification.

The repository's Rust core (`ip_lookup/tree.rs`, `ip_lookup/service.rs`,
the range loader and the threat scorer) is described by `docs/ip-lookups`
but its source is not part of this tree; those components are modelled
here directly from the specification text, as noted on each definition.
The TypeScript glue layers (`web-api`, `sdk`, `web-frontend`) are present
and are embedded from their source.
-/

namespace InfraLock

/-- The IP categories tracked by the engine (spec §3, `IpCategory` in the
Rust docs). -/
inductive Category where
  | VpnDatacenter
  | ProxyHttp
  | ProxySocks4
  | ProxySocks5
  | TorExit
  deriving DecidableEq, Repr

/-- Modelled from the spec: the Rust `RadixTree` (`ip_lookup/tree.rs`) is
absent from the source tree.  Spec §3/§4.1: a binary trie keyed on address
bits where each node may carry a terminal category tag. -/
inductive PrefixTree where
  | leaf : PrefixTree
  | node (tag : Option Category) (zero one : PrefixTree) : PrefixTree
  deriving DecidableEq, Repr

namespace PrefixTree

/-- The empty tree: lookup always returns none (spec §4.1 edge cases). -/
def empty : PrefixTree := .leaf

/-- Modelled from the spec: insert a prefix (as its list of address bits,
most significant first) with a category tag.  A later insertion at the
same node overwrites the tag (spec §4.1: the deeper/later insertion
dominates; construction never fails on overlaps). -/
def insert : PrefixTree → List Bool → Category → PrefixTree
  | .leaf, [], c => .node (some c) .leaf .leaf
  | .node _ z o, [], c => .node (some c) z o
  | .leaf, b :: bs, c =>
      if b then .node none .leaf (insert .leaf bs c)
      else .node none (insert .leaf bs c) .leaf
  | .node t z o, b :: bs, c =>
      if b then .node t z (insert o bs c)
      else .node t (insert z bs c) o

/-- Modelled from the spec (§4.1): walk the trie bit-by-bit from the root,
remembering the deepest node seen so far that carries a tag
(longest-prefix-match). -/
def lookupAux : PrefixTree → List Bool → Option Category → Option Category
  | .leaf, _, best => best
  | .node t _ _, [], best => (t.orElse fun _ => best)
  | .node t z o, b :: bs, best =>
      lookupAux (if b then o else z) bs (t.orElse fun _ => best)

/-- Modelled from the spec: `lookup(ip)` returns the most specific
matching category, or none. -/
def lookup (t : PrefixTree) (ip : List Bool) : Option Category :=
  lookupAux t ip none

end PrefixTree

/-- The `n` low bits of a natural number, most significant first
(address bytes are laid out MSB-first in the trie key). -/
def natBits (w : Nat) (v : Nat) : List Bool :=
  (List.range w).map fun i => v.testBit (w - 1 - i)

/-- The 32-bit key of a dotted-quad IPv4 address. -/
def ipv4Bits (a b c d : Nat) : List Bool :=
  natBits 8 a ++ natBits 8 b ++ natBits 8 c ++ natBits 8 d

/-- The key of an IPv4 CIDR prefix `a.b.c.d/len`: the first `len` address
bits. -/
def cidrBits (a b c d len : Nat) : List Bool :=
  (ipv4Bits a b c d).take len

/-! ### RangeSource (modelled from the spec)

The Rust `IpRangeLoader` is absent from the source tree; docs §"Source
Formats" and spec §4.3 describe it. -/

/-- Modelled from the spec: a normalized network range record (spec §3):
a CIDR prefix (stored as its list of address bits) tagged with a category
and the name of the source it came from. -/
structure NetworkRange where
  addrBits : List Bool
  category : Category
  source : String
  deriving DecidableEq, Repr

/-- Split a character list on a separator character; like JS
`String.split` on a one-character separator. -/
def splitChar (sep : Char) : List Char → List (List Char)
  | [] => [[]]
  | c :: cs =>
    let rest := splitChar sep cs
    if c = sep then [] :: rest
    else match rest with
      | r :: rs => (c :: r) :: rs
      | [] => [[c]]

/-- Strip leading and trailing whitespace from a character list. -/
def trimChars (l : List Char) : List Char :=
  ((l.dropWhile Char.isWhitespace).reverse.dropWhile Char.isWhitespace).reverse

/-- Decimal digits to a number; none when empty or non-numeric. -/
def digitsToNat (l : List Char) : Option Nat :=
  if l = [] then none
  else if ¬ l.all Char.isDigit then none
  else some (l.foldl (fun n c => n * 10 + (c.toNat - 48)) 0)

/-- One dotted-quad octet: one to three digits, value at most 255, no
leading zeros. -/
def parseOctet (l : List Char) : Option Nat :=
  if l.length > 3 then none
  else if 1 < l.length ∧ l.headD ' ' = '0' then none
  else match digitsToNat l with
    | some n => if n ≤ 255 then some n else none
    | none => none

/-- Parse a dotted-quad IPv4 address into its 32 address bits. -/
def parseIPv4 (l : List Char) : Option (List Bool) :=
  match splitChar '.' l with
  | [a, b, c, d] =>
      match parseOctet a, parseOctet b, parseOctet c, parseOctet d with
      | some x, some y, some z, some w => some (ipv4Bits x y z w)
      | _, _, _, _ => none
  | _ => none

/-- Modelled from the spec (§4.3 Default format): a line is a bare IP
(implicitly /32) or an explicit CIDR `ip/len`. -/
def parseCidr (l : List Char) : Option (List Bool) :=
  match splitChar '/' l with
  | [ip] => parseIPv4 ip
  | [ip, len] =>
      match parseIPv4 ip, digitsToNat len with
      | some bits, some n => if n ≤ 32 then some (bits.take n) else none
      | _, _ => none
  | _ => none

/-- Outcome of parsing one line of a Default-format source file. -/
inductive LineParse where
  | skipped
  | parsed (r : NetworkRange)
  | malformed
  deriving DecidableEq, Repr

/-- Modelled from the spec (§4.3): blank lines and comment lines (leading
`#`) are skipped; a valid bare-IP/CIDR line yields a record; anything
else is malformed. -/
def parseDefaultLine (src : String) (cat : Category) (line : String) :
    LineParse :=
  let t := trimChars line.data
  if t = [] then .skipped
  else if t.headD ' ' = '#' then .skipped
  else match parseCidr t with
    | some bits => .parsed ⟨bits, cat, src⟩
    | none => .malformed

/-- The record of a line, if the line parsed. -/
def recordOfLine (src : String) (cat : Category) (line : String) :
    Option NetworkRange :=
  match parseDefaultLine src cat line with
  | .parsed r => some r
  | _ => none

/-- Whether a line is malformed (neither skippable nor parseable). -/
def lineMalformed (src : String) (cat : Category) (line : String) : Bool :=
  match parseDefaultLine src cat line with
  | .malformed => true
  | _ => false

/-- A fetch-level error: the URL/file for a whole source is unreachable
(spec §7). -/
inductive FetchError where
  | unreachable
  deriving DecidableEq, Repr

/-- The result of ingesting one source: the parsed records and one logged
warning per malformed line. -/
structure FetchOutcome where
  records : List NetworkRange
  warnings : List String
  deriving DecidableEq, Repr

/-- Modelled from the spec (§4.3 error policy): malformed lines are
skipped with a warning and never abort ingestion of the file. -/
def ingestLines (src : String) (cat : Category) (lines : List String) :
    FetchOutcome :=
  { records := lines.filterMap (recordOfLine src cat)
    warnings := lines.filter (lineMalformed src cat) }

/-- Modelled from the spec: `RangeSource.fetch`.  An unreachable source
(`none` content) is the only fetch-level error; readable content is always
ingested. -/
def fetch (src : String) (cat : Category) (content : Option (List String)) :
    Except FetchError FetchOutcome :=
  match content with
  | none => .error .unreachable
  | some lines => .ok (ingestLines src cat lines)

/-! ### ThreatScorer (modelled from the spec)

The Rust scorer (`services/lookup_service.rs`) is absent from the source
tree; spec §4.6 gives the policy.  Combination rule chosen as the spec
allows: additive with a cap at 100. -/

/-- Proxy sub-types (spec §4.6). -/
inductive ProxyKind where
  | http
  | socks4
  | socks5
  deriving DecidableEq, Repr

/-- Modelled from the spec (§3): the ephemeral per-request aggregation of
category matches handed to the scorer. -/
structure LookupResult where
  isVpnOrDatacenter : Bool
  proxyType : Option ProxyKind
  isTorExitNode : Bool
  deriving DecidableEq, Repr

/-- Modelled from the spec (§6): the optional geolocation context. -/
structure GeoContext where
  country : Option String
  city : Option String
  asn : Option Nat
  deriving DecidableEq, Repr

/-- Modelled from the spec (§3): the scorer's output. -/
structure ThreatVerdict where
  score : Nat
  reasons : List String
  recommendedAction : String
  deriving DecidableEq, Repr

/-- Named threshold (spec §4.6): at or above it the most restrictive
action is recommended. -/
def BLOCK_THRESHOLD : Nat := 70

/-- Named threshold (spec §4.6): at or above it (and below
`BLOCK_THRESHOLD`) the intermediate action is recommended. -/
def WARN_THRESHOLD : Nat := 30

/-- Score contribution of a Tor exit match (spec §4.6). -/
def TOR_SCORE : Nat := 100

/-- Score contribution of a VPN/datacenter match (spec §4.6). -/
def VPN_SCORE : Nat := 100

/-- Score contribution of a proxy match (spec leaves the weight open;
fixed here, bounded by the cap). -/
def PROXY_SCORE : Nat := 50

/-- The reason string naming a proxy sub-type (spec §4.6). -/
def proxyReason : ProxyKind → String
  | .http => "HTTP/HTTPS proxy detected"
  | .socks4 => "SOCKS4 proxy detected"
  | .socks5 => "SOCKS5 proxy detected"

/-- The additive raw score before the cap. -/
def rawScore (r : LookupResult) : Nat :=
  (if r.isTorExitNode then TOR_SCORE else 0) +
    (if r.isVpnOrDatacenter then VPN_SCORE else 0) +
    (if r.proxyType.isSome then PROXY_SCORE else 0)

/-- The recommended action for a score, via the named thresholds
(spec §4.6). -/
def recommendedActionFor (s : Nat) : String :=
  if BLOCK_THRESHOLD ≤ s then "block"
  else if WARN_THRESHOLD ≤ s then "warn"
  else "allow"

/-- Modelled from the spec: `ThreatScorer.score` (§4.6).  Deterministic,
additive with a cap at 100, reasons in the fixed priority order
Tor, VPN/datacenter, proxy; the geolocation context is accepted but
contributes no points under the documented policy. -/
def score (r : LookupResult) (_geo : Option GeoContext) : ThreatVerdict :=
  let s := min (rawScore r) 100
  { score := s
    reasons :=
      (if r.isTorExitNode then ["Tor exit node detected"] else []) ++
        (if r.isVpnOrDatacenter then
          ["IP is associated with a VPN or data center"] else []) ++
        (match r.proxyType with
          | some k => [proxyReason k]
          | none => [])
    recommendedAction := recommendedActionFor s }

/-- A ten-line Default-format source file: nine valid CIDR/IP lines and
one malformed line. -/
def sampleLines : List String :=
  ["1.2.3.0/24", "5.6.7.8", "9.9.9.0/28", "10.0.0.0/8", "172.16.0.0/12",
    "192.168.1.1", "8.8.8.8/32", "77.88.99.0/25", "203.0.113.0/24",
    "not an ip line"]

/-! ### web-api types and response transformation
(from `src/web-api/src/types/ipLookup.ts` and
`src/web-api/src/controllers/lookupController.ts`) -/

/-- `{ en?: string }` localized-name map. -/
structure LangNames where
  en : Option String
  deriving DecidableEq, Repr

/-- `Country` from `ipLookup.ts`. -/
structure GeoCountry where
  names : Option LangNames
  deriving DecidableEq, Repr

/-- `City` from `ipLookup.ts`. -/
structure GeoCity where
  names : Option LangNames
  deriving DecidableEq, Repr

/-- `Location` from `ipLookup.ts`; JS numbers modelled as integers. -/
structure GeoLocation where
  latitude : Option Int
  longitude : Option Int
  deriving DecidableEq, Repr

/-- `GeoInfo` from `ipLookup.ts`. -/
structure GeoInfo where
  city : Option GeoCity
  country : Option GeoCountry
  location : Option GeoLocation
  deriving DecidableEq, Repr

/-- `AsnInfo` from `ipLookup.ts`. -/
structure AsnInfo where
  autonomous_system_number : Option Nat
  autonomous_system_organization : Option String
  deriving DecidableEq, Repr

/-- The flat `req.clientInfo` shape set by the ipExtraction middleware. -/
structure ClientInfoIn where
  userAgent : String
  browser : String
  browserVersion : String
  os : String
  osVersion : String
  device : String
  deviceType : String
  cpu : String
  engine : String
  deriving DecidableEq, Repr

/-- `ClientBrowserInfo` from `ipLookup.ts`. -/
structure ClientBrowserInfo where
  name : String
  version : String
  deriving DecidableEq, Repr

/-- `ClientOsInfo` from `ipLookup.ts`. -/
structure ClientOsInfo where
  name : String
  version : String
  deriving DecidableEq, Repr

/-- `ClientDeviceInfo` from `ipLookup.ts`. -/
structure ClientDeviceInfo where
  model : String
  type' : String
  deriving DecidableEq, Repr

/-- `ClientInfo` from `ipLookup.ts`. -/
structure ClientInfoOut where
  userAgent : String
  browser : ClientBrowserInfo
  os : ClientOsInfo
  device : ClientDeviceInfo
  cpu : String
  engine : String
  timestamp : String
  deriving DecidableEq, Repr

/-- `LookupResponse` from `ipLookup.ts`: the rust-service's response
shape as consumed by the web-api. -/
structure LookupResponse where
  ip : String
  geo_info : Option GeoInfo
  asn_info : Option AsnInfo
  is_vpn_or_datacenter : Bool
  is_proxy : Bool
  proxy_type : Option String
  is_tor_exit_node : Bool
  threat_score : Int
  threat_details : List String
  recommended_action : String
  deriving DecidableEq, Repr

/-- `IpLookupResult` from `ipLookup.ts`: the shape returned to the
frontend. -/
structure IpLookupResult where
  ip : String
  country : Option String
  city : Option String
  asnInfo : Option AsnInfo
  isVpn : Bool
  isProxy : Bool
  isTor : Bool
  threatScore : Int
  threatDetails : List String
  recommendedAction : String
  latitude : Option Int
  longitude : Option Int
  proxyType : Option String
  clientInfo : Option ClientInfoOut
  deriving DecidableEq, Repr

/-- `transformLookupResponse` from `lookupController.ts` (lines 11-57).
The impure `new Date().toISOString()` is passed in as `nowIso`; the JS
`response.threat_details || []` is the identity here because the field is
a required array. -/
def transformLookupResponse (response : LookupResponse)
    (clientInfo : Option ClientInfoIn) (nowIso : String) : IpLookupResult :=
  let countryName :=
    ((response.geo_info.bind fun g => g.country).bind fun c => c.names).bind
      fun n => n.en
  let cityName :=
    ((response.geo_info.bind fun g => g.city).bind fun c => c.names).bind
      fun n => n.en
  let latitude :=
    (response.geo_info.bind fun g => g.location).bind fun l => l.latitude
  let longitude :=
    (response.geo_info.bind fun g => g.location).bind fun l => l.longitude
  { ip := response.ip
    country := countryName
    city := cityName
    asnInfo := response.asn_info.map fun a =>
      ⟨a.autonomous_system_number, a.autonomous_system_organization⟩
    isVpn := response.is_vpn_or_datacenter
    isProxy := response.is_proxy
    isTor := response.is_tor_exit_node
    threatScore := response.threat_score
    threatDetails := response.threat_details
    recommendedAction := response.recommended_action
    latitude := latitude
    longitude := longitude
    proxyType := response.proxy_type
    clientInfo := clientInfo.map fun ci =>
      { userAgent := ci.userAgent
        browser := ⟨ci.browser, ci.browserVersion⟩
        os := ⟨ci.os, ci.osVersion⟩
        device := ⟨ci.device, ci.deviceType⟩
        cpu := ci.cpu
        engine := ci.engine
        timestamp := nowIso } }

/-- The core output fields of the rust-service (spec §6): category flags,
proxy subtype, score, reasons, recommended action. -/
structure CoreFields where
  isVpnOrDatacenter : Bool
  isProxy : Bool
  isTorExitNode : Bool
  proxyType : Option String
  threatScore : Int
  reasons : List String
  recommendedAction : String
  deriving DecidableEq, Repr

/-- The core fields of a rust-service response. -/
def coreOfResponse (r : LookupResponse) : CoreFields :=
  ⟨r.is_vpn_or_datacenter, r.is_proxy, r.is_tor_exit_node, r.proxy_type,
    r.threat_score, r.threat_details, r.recommended_action⟩

/-- The core fields as they appear in the transformed frontend shape. -/
def coreOfResult (o : IpLookupResult) : CoreFields :=
  ⟨o.isVpn, o.isProxy, o.isTor, o.proxyType, o.threatScore,
    o.threatDetails, o.recommendedAction⟩

/-- A concrete rust-service response used to instantiate theorems. -/
def sampleResponse : LookupResponse :=
  { ip := "1.2.3.4"
    geo_info := none
    asn_info := none
    is_vpn_or_datacenter := true
    is_proxy := false
    proxy_type := none
    is_tor_exit_node := false
    threat_score := 100
    threat_details := ["IP is associated with a VPN or data center"]
    recommended_action := "redirect" }

/-! ### web-api lookup controller and IP-extraction middleware
(from `src/web-api/src/controllers/lookupController.ts` and
`src/web-api/src/middleware/ipExtraction.ts`).  Strings follow JS
truthiness: the empty string stands for a missing/undefined value.
`isIP` (Node's `net.isIP`, returning 0/4/6) is passed in as an oracle. -/

/-- The error classes thrown by the controller. -/
inductive WebApiError where
  | unauthorized (msg : String)
  | badRequest (msg : String)
  deriving DecidableEq, Repr

/-- `lookupIpAddress` from `lookupController.ts` (lines 59-121): the
rust-service call is the oracle `rust`.  `paramIp` is `req.params.ip`
(`""` when absent); a specific-IP lookup validates with `isIP` before any
rust-service call. -/
def lookupIpAddress (isIP : String → Nat) (rust : String → LookupResponse)
    (apiKey paramIp clientIp : String) (clientInfo : Option ClientInfoIn)
    (nowIso : String) : Except WebApiError IpLookupResult :=
  if apiKey = "" then .error (.unauthorized "API key is required")
  else if paramIp ≠ "" ∧ paramIp ≠ "self" then
    if paramIp = "" ∨ isIP paramIp = 0 then
      .error (.badRequest "Invalid IP address format")
    else .ok (transformLookupResponse (rust paramIp) clientInfo nowIso)
  else if clientIp = "" then
    .error (.badRequest "Could not determine client IP address")
  else .ok (transformLookupResponse (rust clientIp) clientInfo nowIso)

/-- `LOCAL_IPS` from `ipExtraction.ts`. -/
def LOCAL_IPS : List String := ["::1", "127.0.0.1", "::ffff:127.0.0.1"]

/-- `DEMO_IP` from `ipExtraction.ts` (line 34). -/
def DEMO_IP : String := "85.14.44.10"

/-- `isPrivateIp` from `ipExtraction.ts` (lines 112-141). -/
def isPrivateIp (isIP : String → Nat) (ip : String) : Bool :=
  if isIP ip = 0 then false
  else
    let ipStr := if ip.startsWith "::ffff:" then ip.drop 7 else ip
    if isIP ipStr = 4 then
      let octets := (splitChar '.' ipStr.data).map fun p =>
        (digitsToNat p).getD 0
      match octets with
      | o0 :: o1 :: _ =>
          (o0 == 10) ||
            (o0 == 172 && decide (16 ≤ o1) && decide (o1 ≤ 31)) ||
            (o0 == 192 && o1 == 168) || (o0 == 169 && o1 == 254)
      | _ => false
    else ip.startsWith "fe80::" || ip.startsWith "fc00::"

/-- The IP string `extractClientIp` (lines 41-107 of `ipExtraction.ts`)
arrives at before validation: first non-empty of x-forwarded-for's first
entry, x-real-ip and socket.remoteAddress, with the development demo-IP
substitution for local/private addresses on `/self`. -/
def extractedIp (isIP : String → Nat)
    (xff xrip remote path env : String) : String :=
  let ip1 :=
    if xff ≠ "" then
      ((splitChar ',' xff.data).map fun p => String.mk (trimChars p)).headD ""
    else ""
  let ip2 := if ip1 = "" then xrip else ip1
  let ip3 := if ip2 = "" then remote else ip2
  if path.endsWith "/self" && env != "production" && ip3 != "" &&
      (LOCAL_IPS.contains ip3 || isPrivateIp isIP ip3) then DEMO_IP
  else ip3

/-- `extractClientIp`: a non-empty extracted string failing `isIP` is
rejected with BadRequest; otherwise the request proceeds with
`req.clientIp` set (falling back to `DEMO_IP` when empty). -/
def extractClientIp (isIP : String → Nat)
    (xff xrip remote path env : String) : Except String String :=
  let ip := extractedIp isIP xff xrip remote path env
  if ip ≠ "" ∧ isIP ip = 0 then .error "Invalid IP address"
  else .ok (if ip = "" then DEMO_IP else ip)

/-! ### SDK HTTP client and lookup
(from `src/sdk/src/utils/httpClient.ts` and `src/sdk/src/client.ts`).
Each fetch attempt's outcome is supplied by the oracle `outcomes`;
`Date.now()` is passed in as `now`. -/

/-- What one fetch attempt can produce: a 2xx response, a non-ok
response carrying an HTTP status (thrown as `ApiError`), a thrown
`NetworkError`, an `AbortError` from the timeout controller, or any other
thrown error. -/
inductive Outcome where
  | ok
  | apiErr (status : Nat)
  | netErr
  | abortErr
  | otherErr
  deriving DecidableEq, Repr

/-- `CircuitBreakerState` from `httpClient.ts` (lines 40-44), for one
hostname+path key. -/
structure CircuitEntry where
  isOpen : Bool
  failureCount : Nat
  lastFailureTime : Option Nat
  deriving DecidableEq, Repr

/-- The `HttpClientOptions` fields the request path reads; `none` is an
omitted option. -/
structure SdkOptions where
  enableCircuitBreaker : Option Bool
  circuitBreakerTimeout : Option Nat
  circuitBreakerThreshold : Option Nat
  maxRetries : Option Nat
  deriving DecidableEq, Repr

/-- JS truthiness of an optional boolean. -/
def jsTruthy : Option Bool → Bool
  | some b => b
  | none => false

/-- JS `value || dflt` for an optional number (0 is falsy). -/
def jsOrNat : Option Nat → Nat → Nat
  | some n, dflt => if n = 0 then dflt else n
  | none, dflt => dflt

/-- `isCircuitOpen` from `httpClient.ts` (lines 60-85).  The half-open
transition mutates the stored state; only the returned decision matters
to the request being processed, so the mutation is not tracked. -/
def isCircuitOpen (opts : SdkOptions) (st : CircuitEntry) (now : Nat) :
    Bool :=
  if jsTruthy opts.enableCircuitBreaker = false then false
  else if st.isOpen = false then false
  else
    match st.lastFailureTime with
    | some t =>
        if t ≠ 0 ∧ now - t > jsOrNat opts.circuitBreakerTimeout 30000 then
          false
        else true
    | none => true

/-- The catch-block break conditions of the retry loop (lines 254-267):
a 4xx `ApiError` other than 429, or a `NetworkError`. -/
def attemptBreaks : Outcome → Bool
  | .apiErr s => if 400 ≤ s ∧ s < 500 ∧ s ≠ 429 then true else false
  | .netErr => true
  | _ => false

/-- How the retry loop ended. -/
inductive LoopEnd where
  | success
  | failed (last : Outcome)
  | noAttempt
  deriving DecidableEq, Repr

/-- The `while (attempt <= maxRetries)` loop of `makeRequest`
(lines 202-275), returning the number of fetches issued and how the loop
ended.  `rem` is the number of loop iterations still permitted. -/
def runAttempts (outcomes : Nat → Outcome) : Nat → Nat → Nat × LoopEnd
  | _, 0 => (0, .noAttempt)
  | attempt, rem + 1 =>
    match outcomes attempt with
    | .ok => (1, .success)
    | e =>
      if attemptBreaks e then (1, .failed e)
      else match rem with
        | 0 => (1, .failed e)
        | rem' + 1 =>
          let res := runAttempts outcomes (attempt + 1) (rem' + 1)
          (res.1 + 1, res.2)

/-- The SDK error that `makeRequest`/`lookup` reject with. -/
inductive SdkError where
  | validation (msg field : String)
  | api (status : Nat)
  | network (code : String)
  deriving DecidableEq, Repr

/-- `makeRequest` from `httpClient.ts` (lines 131-305): circuit-breaker
check, then the retry loop, then the final error mapping.  Returns the
number of fetches issued together with the result. -/
def makeRequest (opts : SdkOptions) (st : CircuitEntry) (now : Nat)
    (outcomes : Nat → Outcome) : Nat × Except SdkError Unit :=
  if isCircuitOpen opts st now then
    (0, .error (.network "ECIRCUITBREAKER"))
  else
    match runAttempts outcomes 0 (opts.maxRetries.getD 3 + 1) with
    | (n, .success) => (n, .ok ())
    | (n, .failed (.apiErr s)) => (n, .error (.api s))
    | (n, .failed .abortErr) => (n, .error (.network "ETIMEDOUT"))
    | (n, _) => (n, .error (.network "ENETWORKERROR"))

/-- `GeolocationClient.lookup` from `client.ts` (lines 46-72).  The
`isValidIp` helper lives in the SDK's `urlBuilder` module, absent from
the source tree, and is passed in as an oracle. -/
def sdkLookup (isValidIp : String → Bool) (opts : SdkOptions)
    (st : CircuitEntry) (now : Nat) (outcomes : Nat → Outcome)
    (ip : Option String) : Nat × Except SdkError Unit :=
  match ip with
  | some i =>
    if i ≠ "" ∧ isValidIp i = false then
      (0, .error (.validation "Invalid IP address format" "ip"))
    else makeRequest opts st now outcomes
  | none => makeRequest opts st now outcomes

/-- A coarse recogniser for IPv6-looking strings, standing in for the
IPv6 half of Node's `net.isIP` in concrete instantiations. -/
def looksLikeIPv6 (l : List Char) : Bool :=
  l.contains ':' && l.all fun c =>
    c.isDigit || c = ':' || ('a' ≤ c && c ≤ 'f') || ('A' ≤ c && c ≤ 'F')

/-- A concrete model of Node's `net.isIP` used to instantiate the
oracle-parametric theorems: 4 for a dotted quad, 6 for an IPv6-looking
string, 0 otherwise. -/
def nodeIsIP (s : String) : Nat :=
  if (parseIPv4 s.data).isSome then 4
  else if looksLikeIPv6 s.data then 6
  else 0

/-- Modelled from the spec: the SDK's `isValidIp` (its `urlBuilder`
module is absent from the source tree); a syntactically valid IP is one
`net.isIP` accepts. -/
def isValidIpModel (s : String) : Bool := nodeIsIP s ≠ 0

/-- Concrete SDK options used to instantiate theorems. -/
def sampleOpts : SdkOptions := ⟨some true, none, none, some 5⟩

/-- A closed circuit-breaker entry. -/
def closedCircuit : CircuitEntry := ⟨false, 0, none⟩

/-- An open circuit-breaker entry whose last failure was at time 500. -/
def openCircuit : CircuitEntry := ⟨true, 5, some 500⟩

namespace PrefixTree

lemma lookupAux_leaf (bs : List Bool) (best : Option Category) :
    lookupAux .leaf bs best = best := by
  cases bs <;> rfl

/-- Looking up any key extending a freshly inserted prefix finds that
prefix's category. -/
lemma lookupAux_insert_leaf (bs rest : List Bool) (c : Category)
    (best : Option Category) :
    lookupAux (insert .leaf bs c) (bs ++ rest) best = some c := by
  induction bs generalizing best with
  | nil =>
    cases rest with
    | nil => simp [insert, lookupAux, Option.orElse]
    | cons b bs' =>
      cases b <;> simp [insert, lookupAux, Option.orElse, lookupAux_leaf]
  | cons b bs ih =>
    cases b <;> simp [insert, lookupAux, Option.orElse] <;> exact ih best

/-- After inserting a shorter prefix `p2` and then a strictly longer
prefix `p2 ++ s` on the same path, a lookup of any key under the longer
prefix reaches the deeper tag. -/
lemma lookupAux_longer_wins (p2 s r : List Bool) (c1 c2 : Category)
    (best : Option Category) (hs : s ≠ []) :
    lookupAux (insert (insert .leaf p2 c2) (p2 ++ s) c1) (p2 ++ (s ++ r)) best
      = some c1 := by
  induction p2 generalizing best with
  | nil =>
    cases s with
    | nil => exact absurd rfl hs
    | cons b bs =>
      cases b <;> simp [insert, lookupAux, Option.orElse] <;>
        exact lookupAux_insert_leaf bs r c1 (some c2)
  | cons a p2' ih =>
    cases a <;> simp [insert, lookupAux, Option.orElse] <;> exact ih best

end PrefixTree

/-- C1: Longest-prefix-match correctness.  For every pair of prefixes with
`p2 ++ s` (the more specific) contained in `p2`, tagged with distinct
categories `c1` and `c2` and inserted into the same family's tree, looking
up any address `p2 ++ s ++ r` inside the more specific prefix returns the
more specific prefix's category `c1` and never `c2`. -/
theorem longest_prefix_match_correct (p2 s r : List Bool) (c1 c2 : Category)
    (hs : s ≠ []) (hc : c1 ≠ c2) :
    PrefixTree.lookup
        (PrefixTree.insert (PrefixTree.insert PrefixTree.empty p2 c2)
          (p2 ++ s) c1) (p2 ++ s ++ r) = some c1 ∧
      PrefixTree.lookup
        (PrefixTree.insert (PrefixTree.insert PrefixTree.empty p2 c2)
          (p2 ++ s) c1) (p2 ++ s ++ r) ≠ some c2 := by
  have h := PrefixTree.lookupAux_longer_wins p2 s r c1 c2 none hs
  simp only [PrefixTree.lookup, PrefixTree.empty, List.append_assoc]
  refine ⟨h, ?_⟩
  rw [h]
  intro hcontra
  exact hc (Option.some.injEq .. ▸ hcontra)

/-- C1 witness: insert `1.2.3.0/24` as VpnDatacenter then `1.2.3.128/25`
(= the /24 prefix extended by one set bit) as ProxyHttp; `1.2.3.200` lies
under the /25 and resolves to ProxyHttp, `1.2.3.50` lies only under the
/24 and resolves to VpnDatacenter. -/
theorem longest_prefix_match_correct_witness :
    cidrBits 1 2 3 0 24 ++ [true] = cidrBits 1 2 3 128 25 ∧
      cidrBits 1 2 3 0 24 ++ [true] ++ natBits 7 72 = ipv4Bits 1 2 3 200 ∧
      (PrefixTree.lookup
          (PrefixTree.insert
            (PrefixTree.insert PrefixTree.empty (cidrBits 1 2 3 0 24)
              Category.VpnDatacenter)
            (cidrBits 1 2 3 0 24 ++ [true]) Category.ProxyHttp)
          (cidrBits 1 2 3 0 24 ++ [true] ++ natBits 7 72)
          = some Category.ProxyHttp ∧
        PrefixTree.lookup
          (PrefixTree.insert
            (PrefixTree.insert PrefixTree.empty (cidrBits 1 2 3 0 24)
              Category.VpnDatacenter)
            (cidrBits 1 2 3 0 24 ++ [true]) Category.ProxyHttp)
          (cidrBits 1 2 3 0 24 ++ [true] ++ natBits 7 72)
          ≠ some Category.VpnDatacenter) ∧
      PrefixTree.lookup
        (PrefixTree.insert
          (PrefixTree.insert PrefixTree.empty (cidrBits 1 2 3 0 24)
            Category.VpnDatacenter)
          (cidrBits 1 2 3 0 24 ++ [true]) Category.ProxyHttp)
        (ipv4Bits 1 2 3 50) = some Category.VpnDatacenter :=
  ⟨by decide, by decide,
    longest_prefix_match_correct (cidrBits 1 2 3 0 24) [true] (natBits 7 72)
      Category.ProxyHttp Category.VpnDatacenter (by decide) (by decide),
    by decide⟩

lemma length_filterMap_recordOf (src : String) (cat : Category)
    (L : List String) :
    (L.filterMap (recordOfLine src cat)).length
      = L.countP (fun l => (recordOfLine src cat l).isSome) := by
  induction L with
  | nil => rfl
  | cons l L ih =>
    cases h : recordOfLine src cat l <;>
      simp [List.filterMap_cons, h, List.countP_cons, ih]

lemma recordOfLine_eq_none_of_malformed (src : String) (cat : Category)
    (l : String) (h : lineMalformed src cat l = true) :
    recordOfLine src cat l = none := by
  unfold lineMalformed at h
  unfold recordOfLine
  cases hp : parseDefaultLine src cat l <;> simp_all

lemma count_valid_of_not_malformed (src : String) (cat : Category)
    (L : List String)
    (h : ∀ l ∈ L, lineMalformed src cat l = false →
      (recordOfLine src cat l).isSome) :
    L.countP (fun l => (recordOfLine src cat l).isSome)
        + L.countP (fun l => lineMalformed src cat l) = L.length := by
  induction L with
  | nil => rfl
  | cons a L ih =>
    have hL : ∀ l ∈ L, lineMalformed src cat l = false →
        (recordOfLine src cat l).isSome :=
      fun l hl => h l (List.mem_cons_of_mem _ hl)
    have ihL := ih hL
    by_cases hm : lineMalformed src cat a = true
    · have hnone := recordOfLine_eq_none_of_malformed src cat a hm
      simp [List.countP_cons, hm, hnone]
      omega
    · have hsome := h a (List.mem_cons_self a L) (by simpa using hm)
      simp [List.countP_cons, hsome, Bool.eq_false_iff.mpr hm]
      omega

/-- C6: Parser robustness.  A readable source file with exactly one
malformed line among ten, all other lines valid CIDR/IP lines, ingests
without a fetch-level error into exactly nine records (one per valid
line) plus one logged warning. -/
theorem one_bad_line_is_skipped (src : String) (cat : Category)
    (lines : List String) (hlen : lines.length = 10)
    (hbad : lines.countP (fun l => lineMalformed src cat l) = 1)
    (hval : ∀ l ∈ lines, lineMalformed src cat l = false →
      (recordOfLine src cat l).isSome) :
    fetch src cat (some lines) = .ok (ingestLines src cat lines) ∧
      (ingestLines src cat lines).records.length = 9 ∧
      (ingestLines src cat lines).warnings.length = 1 ∧
      ∀ r ∈ (ingestLines src cat lines).records,
        ∃ l ∈ lines, recordOfLine src cat l = some r := by
  refine ⟨rfl, ?_, ?_, ?_⟩
  · have h1 := length_filterMap_recordOf src cat lines
    have h2 := count_valid_of_not_malformed src cat lines hval
    simp only [ingestLines]
    omega
  · simp only [ingestLines, ← List.countP_eq_length_filter, hbad]
  · intro r hr
    simpa [ingestLines, List.mem_filterMap] using hr

/-- C6 witness: the concrete ten-line file `sampleLines` (nine valid
lines, one malformed) yields nine records and one warning. -/
theorem one_bad_line_is_skipped_witness :
    sampleLines.length = 10 ∧
      sampleLines.countP
        (fun l => lineMalformed "vpn-list" Category.VpnDatacenter l) = 1 ∧
      fetch "vpn-list" Category.VpnDatacenter (some sampleLines)
        = .ok (ingestLines "vpn-list" Category.VpnDatacenter sampleLines) ∧
      (ingestLines "vpn-list" Category.VpnDatacenter sampleLines).records.length
        = 9 ∧
      (ingestLines "vpn-list" Category.VpnDatacenter
        sampleLines).warnings.length = 1 :=
  ⟨by decide, by decide,
    (one_bad_line_is_skipped "vpn-list" Category.VpnDatacenter sampleLines
      (by decide) (by decide) (by decide)).1,
    (one_bad_line_is_skipped "vpn-list" Category.VpnDatacenter sampleLines
      (by decide) (by decide) (by decide)).2.1,
    (one_bad_line_is_skipped "vpn-list" Category.VpnDatacenter sampleLines
      (by decide) (by decide) (by decide)).2.2.1⟩

/-- C2: Score boundedness and determinism.  For every lookup result and
optional geolocation context the score lies in [0, 100], and identical
inputs give identical verdicts, the order of the reasons list included. -/
theorem score_bounded_and_deterministic (r : LookupResult)
    (g : Option GeoContext) :
    0 ≤ (score r g).score ∧ (score r g).score ≤ 100 ∧
      score r g = score r g ∧ (score r g).reasons = (score r g).reasons :=
  ⟨Nat.zero_le _, Nat.min_le_right _ _, rfl, rfl⟩

/-- C3: Action thresholds.  The recommended action of every verdict is
derived from the named constants `BLOCK_THRESHOLD = 70` and
`WARN_THRESHOLD = 30`: at or above 70 the most restrictive tier, between
30 and 69 the intermediate tier, below 30 allow. -/
theorem action_thresholds (r : LookupResult) (g : Option GeoContext) :
    BLOCK_THRESHOLD = 70 ∧ WARN_THRESHOLD = 30 ∧
      (score r g).recommendedAction
        = recommendedActionFor ((score r g).score) ∧
      (BLOCK_THRESHOLD ≤ (score r g).score →
        (score r g).recommendedAction = "block") ∧
      (WARN_THRESHOLD ≤ (score r g).score ∧
          (score r g).score < BLOCK_THRESHOLD →
        (score r g).recommendedAction = "warn") ∧
      ((score r g).score < WARN_THRESHOLD →
        (score r g).recommendedAction = "allow") := by
  have hact : (score r g).recommendedAction
      = recommendedActionFor ((score r g).score) := rfl
  refine ⟨rfl, rfl, hact, ?_, ?_, ?_⟩
  · intro h
    rw [hact]
    unfold recommendedActionFor
    rw [if_pos h]
  · rintro ⟨h1, h2⟩
    rw [hact]
    unfold recommendedActionFor
    rw [if_neg (by omega), if_pos h1]
  · intro h
    rw [hact]
    unfold recommendedActionFor
    have hb : ¬ BLOCK_THRESHOLD ≤ (score r g).score := by
      unfold BLOCK_THRESHOLD WARN_THRESHOLD at *
      omega
    have hw : ¬ WARN_THRESHOLD ≤ (score r g).score := by omega
    rw [if_neg hb, if_neg hw]

/-- C3 witness: a Tor-only result scores into the block tier, a
proxy-only result into the warn tier, and a clean result into allow. -/
theorem action_thresholds_witness :
    (score ⟨false, none, true⟩ none).recommendedAction = "block" ∧
      (score ⟨false, some ProxyKind.http, false⟩ none).recommendedAction
        = "warn" ∧
      (score ⟨false, none, false⟩ none).recommendedAction = "allow" :=
  ⟨(action_thresholds ⟨false, none, true⟩ none).2.2.2.1 (by decide),
    (action_thresholds ⟨false, some ProxyKind.http, false⟩ none).2.2.2.2.1
      (by decide),
    (action_thresholds ⟨false, none, false⟩ none).2.2.2.2.2 (by decide)⟩

/-- C5: `transformLookupResponse` is lossless on the core fields: every
core field of the rust-service response reappears unchanged in the
transformed result (so the core fields are recoverable, and no two
responses differing on them map to equal outputs). -/
theorem transform_preserves_core :
    (∀ (r : LookupResponse) (ci : Option ClientInfoIn) (nowIso : String),
      coreOfResult (transformLookupResponse r ci nowIso) = coreOfResponse r)
      ∧
      ∀ (r₁ : LookupResponse) (ci₁ : Option ClientInfoIn) (n₁ : String)
        (r₂ : LookupResponse) (ci₂ : Option ClientInfoIn) (n₂ : String),
        transformLookupResponse r₁ ci₁ n₁ = transformLookupResponse r₂ ci₂ n₂
          → coreOfResponse r₁ = coreOfResponse r₂ := by
  have h1 : ∀ (r : LookupResponse) (ci : Option ClientInfoIn)
      (nowIso : String),
      coreOfResult (transformLookupResponse r ci nowIso) = coreOfResponse r :=
    fun r ci nowIso => rfl
  refine ⟨h1, fun r₁ ci₁ n₁ r₂ ci₂ n₂ h => ?_⟩
  rw [← h1 r₁ ci₁ n₁, h, h1 r₂ ci₂ n₂]

/-- C5 witness: the round trip on a concrete response, and the
injectivity direction applied at equal inputs. -/
theorem transform_preserves_core_witness :
    coreOfResult (transformLookupResponse sampleResponse none "2024-01-01")
        = coreOfResponse sampleResponse ∧
      coreOfResponse sampleResponse = coreOfResponse sampleResponse :=
  ⟨transform_preserves_core.1 sampleResponse none "2024-01-01",
    transform_preserves_core.2 sampleResponse none "2024-01-01"
      sampleResponse none "2024-01-01" rfl⟩

/-- C4: invalid caller-supplied IP strings are rejected synchronously.
For every validity oracle and every IP string it rejects, the web-api
controller's specific-IP branch throws BadRequest (for every rust-service
oracle, so nothing is coerced or forwarded), and the SDK's `lookup`
throws a ValidationError with zero fetches issued. -/
theorem invalid_ip_rejected (isIP : String → Nat) (isValidIp : String → Bool)
    (rust : String → LookupResponse) (apiKey ip clientIp : String)
    (ci : Option ClientInfoIn) (nowIso : String) (opts : SdkOptions)
    (st : CircuitEntry) (now : Nat) (outcomes : Nat → Outcome)
    (hkey : apiKey ≠ "") (hip : ip ≠ "") (hself : ip ≠ "self")
    (hbad : isIP ip = 0) (hbad2 : isValidIp ip = false) :
    lookupIpAddress isIP rust apiKey ip clientIp ci nowIso
        = .error (.badRequest "Invalid IP address format") ∧
      sdkLookup isValidIp opts st now outcomes (some ip)
        = (0, .error (.validation "Invalid IP address format" "ip")) := by
  constructor
  · unfold lookupIpAddress
    rw [if_neg hkey, if_pos ⟨hip, hself⟩, if_pos (Or.inr hbad)]
  · simp only [sdkLookup]
    rw [if_pos ⟨hip, hbad2⟩]

/-- C4 witness: the string `"not-an-ip"` fails the modelled `net.isIP`
and `isValidIp`, the controller rejects it with BadRequest, and the SDK
rejects it with a ValidationError without fetching. -/
theorem invalid_ip_rejected_witness :
    nodeIsIP "not-an-ip" = 0 ∧ isValidIpModel "not-an-ip" = false ∧
      lookupIpAddress nodeIsIP (fun _ => sampleResponse) "demo-key"
          "not-an-ip" "" none "2024-01-01"
        = .error (.badRequest "Invalid IP address format") ∧
      sdkLookup isValidIpModel sampleOpts closedCircuit 0 (fun _ => .ok)
          (some "not-an-ip")
        = (0, .error (.validation "Invalid IP address format" "ip")) :=
  ⟨by decide, by decide,
    (invalid_ip_rejected nodeIsIP isValidIpModel (fun _ => sampleResponse)
      "demo-key" "not-an-ip" "" none "2024-01-01" sampleOpts closedCircuit 0
      (fun _ => .ok) (by decide) (by decide) (by decide) (by decide)
      (by decide)).1,
    (invalid_ip_rejected nodeIsIP isValidIpModel (fun _ => sampleResponse)
      "demo-key" "not-an-ip" "" none "2024-01-01" sampleOpts closedCircuit 0
      (fun _ => .ok) (by decide) (by decide) (by decide) (by decide)
      (by decide)).2⟩

/-- C8: when no IP is found in x-forwarded-for, x-real-ip or
socket.remoteAddress, the middleware does not reject: `req.clientIp` is
set to the constant `85.14.44.10` and the request proceeds, for every
environment (production included) and every path; and a rejection happens
exactly when the extracted string is non-empty and fails `isIP`. -/
theorem missing_ip_falls_back_to_demo (isIP : String → Nat)
    (path env : String) :
    extractClientIp isIP "" "" "" path env = .ok "85.14.44.10" ∧
      DEMO_IP = "85.14.44.10" ∧
      ∀ xff xrip remote,
        (∃ e, extractClientIp isIP xff xrip remote path env = .error e) ↔
          extractedIp isIP xff xrip remote path env ≠ "" ∧
            isIP (extractedIp isIP xff xrip remote path env) = 0 := by
  refine ⟨?_, rfl, ?_⟩
  · have hext : extractedIp isIP "" "" "" path env = "" := by
      simp [extractedIp]
    simp [extractClientIp, hext, DEMO_IP]
  · intro xff xrip remote
    constructor
    · rintro ⟨e, he⟩
      by_cases hc : extractedIp isIP xff xrip remote path env ≠ "" ∧
          isIP (extractedIp isIP xff xrip remote path env) = 0
      · exact hc
      · rw [extractClientIp, if_neg hc] at he
        exact absurd he (by simp)
    · intro hc
      exact ⟨"Invalid IP address", by rw [extractClientIp, if_pos hc]⟩

lemma runAttempts_breaks_after (outcomes : Nat → Outcome) (s : Nat)
    (hbr : attemptBreaks (.apiErr s) = true) :
    ∀ (k a rem : Nat), k < rem →
      (∀ i, i < k →
        outcomes (a + i) = .abortErr ∨ outcomes (a + i) = .otherErr) →
      outcomes (a + k) = .apiErr s →
      runAttempts outcomes a rem = (k + 1, .failed (.apiErr s)) := by
  have habort : attemptBreaks .abortErr = false := rfl
  have hother : attemptBreaks .otherErr = false := rfl
  intro k
  induction k with
  | zero =>
    intro a rem hrem _hprev hk
    obtain ⟨r, rfl⟩ : ∃ r, rem = r + 1 := ⟨rem - 1, by omega⟩
    rw [Nat.add_zero] at hk
    rw [runAttempts, hk]
    simp only [hbr, if_true]
  | succ k ih =>
    intro a rem hrem hprev hk
    obtain ⟨r, rfl⟩ : ∃ r, rem = r + 1 := ⟨rem - 1, by omega⟩
    obtain ⟨q, rfl⟩ : ∃ q, r = q + 1 := ⟨r - 1, by omega⟩
    have h0 := hprev 0 (Nat.succ_pos k)
    rw [Nat.add_zero] at h0
    have hrec := ih (a + 1) (q + 1) (by omega)
      (fun i hi => by
        have hs := hprev (i + 1) (by omega)
        rwa [show a + (i + 1) = a + 1 + i by omega] at hs)
      (by rw [show a + 1 + k = a + (k + 1) by omega]; exact hk)
    rcases h0 with h0 | h0 <;>
      simp only [runAttempts, h0, habort, hother, Bool.false_eq_true,
        if_false, hrec]

/-- C9: whenever an attempt fails with an `ApiError` whose status is in
[400,500) and is not 429, no further attempt is made regardless of the
configured `maxRetries`: the loop exits right after that request and the
`ApiError` is rethrown (a failure on the first attempt thus costs exactly
one HTTP request). -/
theorem no_retry_on_4xx (opts : SdkOptions) (st : CircuitEntry) (now : Nat)
    (outcomes : Nat → Outcome) (s k : Nat)
    (hopen : isCircuitOpen opts st now = false)
    (hk : k ≤ opts.maxRetries.getD 3)
    (hprev : ∀ i, i < k →
      outcomes i = .abortErr ∨ outcomes i = .otherErr)
    (hfail : outcomes k = .apiErr s) (h4 : 400 ≤ s) (h5 : s < 500)
    (h429 : s ≠ 429) :
    makeRequest opts st now outcomes = (k + 1, .error (.api s)) := by
  have hbr : attemptBreaks (.apiErr s) = true := by
    simp only [attemptBreaks]
    rw [if_pos ⟨h4, h5, h429⟩]
  have hrun := runAttempts_breaks_after outcomes s hbr k 0
    (opts.maxRetries.getD 3 + 1) (by omega)
    (fun i hi => by simpa using hprev i hi)
    (by simpa using hfail)
  unfold makeRequest
  rw [hopen]
  simp only [Bool.false_eq_true, if_false, hrun]

/-- C9 witness: a 404 on the first attempt with `maxRetries = 5` yields
exactly one fetch and the rethrown 404. -/
theorem no_retry_on_4xx_witness :
    isCircuitOpen sampleOpts closedCircuit 1000 = false ∧
      makeRequest sampleOpts closedCircuit 1000
          (fun _ => Outcome.apiErr 404)
        = (1, .error (.api 404)) :=
  ⟨by decide,
    no_retry_on_4xx sampleOpts closedCircuit 1000
      (fun _ => Outcome.apiErr 404) 404 0 (by decide) (by decide)
      (fun i hi => absurd hi (Nat.not_lt_zero i)) rfl (by decide)
      (by decide) (by decide)⟩

/-- C10: while the circuit breaker is enabled and open (failure count at
or past the threshold) and less than the configured timeout has elapsed
since the last recorded failure, `makeRequest` issues no fetch at all and
rejects with a NetworkError coded `ECIRCUITBREAKER`. -/
theorem circuit_open_blocks_requests (opts : SdkOptions) (st : CircuitEntry)
    (now t : Nat) (outcomes : Nat → Outcome)
    (hen : jsTruthy opts.enableCircuitBreaker = true)
    (hopen : st.isOpen = true)
    (_hcount : jsOrNat opts.circuitBreakerThreshold 5 ≤ st.failureCount)
    (hlast : st.lastFailureTime = some t) (_ht : t ≠ 0)
    (helapsed : now - t < jsOrNat opts.circuitBreakerTimeout 30000) :
    makeRequest opts st now outcomes
      = (0, .error (.network "ECIRCUITBREAKER")) := by
  have hco : isCircuitOpen opts st now = true := by
    unfold isCircuitOpen
    rw [hen, hopen, hlast]
    simp only [Bool.true_eq_false, if_false]
    rw [if_neg]
    rintro ⟨-, hgt⟩
    omega
  unfold makeRequest
  rw [hco]
  simp only [if_true]

/-- C10 witness: with defaults (threshold 5, timeout 30000 ms), an open
circuit whose last failure was 500 ms ago blocks the request at time
1000 ms with zero fetches. -/
theorem circuit_open_blocks_requests_witness :
    jsTruthy sampleOpts.enableCircuitBreaker = true ∧
      openCircuit.isOpen = true ∧
      jsOrNat sampleOpts.circuitBreakerThreshold 5
        ≤ openCircuit.failureCount ∧
      (1000 : Nat) - 500 < jsOrNat sampleOpts.circuitBreakerTimeout 30000 ∧
      makeRequest sampleOpts openCircuit 1000 (fun _ => Outcome.ok)
        = (0, .error (.network "ECIRCUITBREAKER")) :=
  ⟨by decide, by decide, by decide, by decide,
    circuit_open_blocks_requests sampleOpts openCircuit 1000 500
      (fun _ => Outcome.ok) (by decide) (by decide) (by decide) rfl
      (by decide) (by decide)⟩

end InfraLock
